import Mathlib

/-!
# Login throttling and user management: a shallow embedding

The development follows the four JavaScript modules of the backend:

* `authentication-service.js`  (`checkLoginCredentials`, the `loginAttempts` object),
* `authentication-controller.js` (`login`),
* `users-repository.js` (`getUsers` and the thin wrappers around the `User` model),
* `users-service.js` (the CRUD flow and the `filterUsers` / `sortUsers` / `paginateUsers`
  functions at the bottom of the file).

Asynchronous functions are embedded as functions returning `Except JsError α`: a rejected
promise (or a thrown exception) is `Except.error`, a resolved one is `Except.ok`.  The
JavaScript value `null` returned by a function is `none`.  Mutable state owned by the code
(`loginAttempts`) and the state of the document store are passed explicitly.
-/

namespace Midtest

/-! ## Errors -/

/-- The two members of `errorTypes` (core/errors) that the login handler uses. -/
inductive ErrorType where
  | INVALID_CREDENTIALS
  | TOO_MANY_ATTEMPTS
deriving DecidableEq

/-- Values that can be thrown: a `TypeError` or `SyntaxError` of the runtime, the object
built by `errorResponder(type, message)`, or the rejection reason of an external
collaborator. -/
inductive JsError where
  | typeError (message : String)
  | syntaxError (message : String)
  | responder (type : ErrorType) (message : String)
  | rejection (reason : String)
deriving DecidableEq

/-! ## Documents -/

/-- A document of the user collection, with the fields the code reads. -/
structure User where
  id : String
  name : String
  email : String
  password : String
deriving DecidableEq

/-! ## authentication-service.js -/

/-- The value stored under an email in `loginAttempts`: `{ count, lastAttempt }`.
`lastAttempt` is a `Date.now()` reading in milliseconds. -/
structure AttemptInfo where
  count : Nat
  lastAttempt : Int
deriving DecidableEq

/-- The module-level object `loginAttempts`, read as a dictionary from email to record:
`none` is an email without a property.  Emails range over the keys a dictionary is used
with (not the property names every object inherits, such as "constructor"). -/
abbrev LoginAttempts := String → Option AttemptInfo

/-- The object `const loginAttempts = {}` the module starts with. -/
def LoginAttempts.empty : LoginAttempts := fun _ => none

/-- The object returned by a successful `checkLoginCredentials`. -/
structure LoginPayload where
  email : String
  name : String
  user_id : String
  token : String
deriving DecidableEq

/-- The collaborators of the authentication service that are required from other modules:
`authenticationRepository.getUserByEmail` (a store lookup, which may reject),
`passwordMatched` and `generateToken` (the interfaces `matches(plaintext, hash) -> bool`
and `issue(email, id) -> token`). -/
structure AuthDeps where
  getUserByEmail : String → Except JsError (Option User)
  passwordMatched : String → String → Bool
  generateToken : String → String → String

/-- The literal `30 * 60 * 1000` of the reset test. -/
def lockoutWindowMs : Int := 30 * 60 * 1000

/-- Lines 18 to 31 of `checkLoginCredentials`: fetch the record or start from
`{ count: 0, lastAttempt: 0 }`, reset the count when the previous attempt is older than the
window, stamp the time and increment the count.  `nowCheck` is the `Date.now()` reading of
the reset test (line 23), `nowStamp` the reading stored in line 29. -/
def recordAttempt (nowCheck nowStamp : Int) (current : Option AttemptInfo) : AttemptInfo :=
  let attemptInfo := current.getD { count := 0, lastAttempt := 0 }
  let attemptInfo :=
    if attemptInfo.lastAttempt > 0 ∧ nowCheck - attemptInfo.lastAttempt > lockoutWindowMs then
      { attemptInfo with count := 0 }
    else attemptInfo
  { lastAttempt := nowStamp, count := attemptInfo.count + 1 }

/-- The function `checkLoginCredentials(email, password)`.  The result pairs what the
promise settles to with the `loginAttempts` object after the call. -/
def checkLoginCredentials (deps : AuthDeps) (nowCheck nowStamp : Int)
    (email password : String) (loginAttempts : LoginAttempts) :
    Except JsError (Option LoginPayload) × LoginAttempts :=
  match deps.getUserByEmail email with
  | .error e => (.error e, loginAttempts)
  | .ok user =>
    let attemptInfo := recordAttempt nowCheck nowStamp (loginAttempts email)
    let loginAttempts := Function.update loginAttempts email (some attemptInfo)
    match user with
    | some u =>
      if deps.passwordMatched password u.password then
        (.ok (some
            { email := u.email, name := u.name, user_id := u.id,
              token := deps.generateToken u.email u.id }),
          Function.update loginAttempts email none)
      else (.ok none, loginAttempts)
    | none => (.ok none, loginAttempts)

/-- The credential check of a call fails: the lookup resolves to no user, or to a user
whose stored password does not match. -/
def CredentialsFail (deps : AuthDeps) (email password : String) : Prop :=
  deps.getUserByEmail email = .ok none ∨
    ∃ u, deps.getUserByEmail email = .ok (some u) ∧ deps.passwordMatched password u.password = false

/-! ## authentication-controller.js -/

/-- The object `require('./authentication-service')` as the controller uses it: the two
properties it reads.  A property the module does not export reads as `undefined`, here
`none`. -/
structure AuthenticationServices where
  checkLoginCredentials : AuthDeps → Int → Int → String → String → LoginAttempts →
    Except JsError (Option LoginPayload) × LoginAttempts
  getLoginAttemptInfo : Option (String → LoginAttempts → Option AttemptInfo)

/-- What `module.exports = { checkLoginCredentials }` of authentication-service.js gives. -/
def authenticationServices : AuthenticationServices :=
  { checkLoginCredentials := checkLoginCredentials
    getLoginAttemptInfo := none }

/-- How the handler ends: `response.status(200).json(body)` or `next(error)`. -/
inductive HandlerOutcome where
  | json (status : Nat) (body : LoginPayload)
  | next (error : JsError)
deriving DecidableEq

/-- The message of the lockout error. -/
def tooManyAttemptsMessage : String :=
  "Terlalu banyak percobaan yang salah. silahkan dicoba beberapa saat lagi."

/-- The message of the wrong-credentials error. -/
def invalidCredentialsMessage : String := "email atau password salah"

/-- The `TypeError` raised by calling a property that is `undefined`. -/
def notAFunction : JsError :=
  .typeError "authenticationServices.getLoginAttemptInfo is not a function"

/-- The handler `login(request, response, next)` with `{ email, password } = request.body`.
Everything thrown inside the `try` block reaches `next`. -/
def login (services : AuthenticationServices) (deps : AuthDeps) (nowCheck nowStamp : Int)
    (email password : String) (loginAttempts : LoginAttempts) :
    HandlerOutcome × LoginAttempts :=
  match services.checkLoginCredentials deps nowCheck nowStamp email password loginAttempts with
  | (.error e, st) => (.next e, st)
  | (.ok (some loginSuccess), st) => (.json 200 loginSuccess, st)
  | (.ok none, st) =>
    match services.getLoginAttemptInfo with
    | none => (.next notAFunction, st)
    | some getLoginAttemptInfo =>
      match getLoginAttemptInfo email st with
      | some loginAttemptInfo =>
        if loginAttemptInfo.count ≥ 5 then
          (.next (.responder .TOO_MANY_ATTEMPTS tooManyAttemptsMessage), st)
        else (.next (.responder .INVALID_CREDENTIALS invalidCredentialsMessage), st)
      | none => (.next (.responder .INVALID_CREDENTIALS invalidCredentialsMessage), st)

/-- Consecutive calls of the handler for one email, one pair of clock readings per call;
returns the outcome of the last call and the final `loginAttempts`. -/
def loginCalls (services : AuthenticationServices) (deps : AuthDeps) (email password : String) :
    List (Int × Int) → LoginAttempts → Option HandlerOutcome × LoginAttempts
  | [], st => (none, st)
  | [(c, s)], st =>
    let r := login services deps c s email password st
    (some r.1, r.2)
  | (c, s) :: rest, st =>
    loginCalls services deps email password rest (login services deps c s email password st).2

/-! ## The `User` model and the password helpers (required by users-repository.js) -/

/-- A JavaScript number as `Math.ceil(totalUsers / page_size)` can produce it from natural
operands: a natural, `Infinity` (division of a positive count by zero) or `NaN` (0 / 0). -/
inductive JsNumber where
  | finite (n : Nat)
  | infinity
  | nan
deriving DecidableEq

/-- The expression `Math.ceil(a / b)` for natural `a` and `b`. -/
def mathCeilDiv (a b : Nat) : JsNumber :=
  if b = 0 then (if a = 0 then .nan else .infinity) else .finite ((a + b - 1) / b)

/-- The comparison `n < x` for a natural `n`: false against `NaN`. -/
def JsNumber.gtNat : JsNumber → Nat → Bool
  | .finite m, n => decide (n < m)
  | .infinity, _ => true
  | .nan, _ => false

/-- The filter `{ [field]: new RegExp(pattern, 'i') }`; `pattern` is `none` when
`search.split(':')[1]` is `undefined`. -/
structure RegexFilter where
  field : String
  pattern : Option String
deriving DecidableEq

/-- The query object of `getUsers`: the regular-expression filter, or `{}` (`none`). -/
abbrev Query := Option RegexFilter

/-- The object `{ [field]: direction }` given to `.sort`. -/
structure SortParams where
  field : String
  direction : Int
deriving DecidableEq

/-- The second argument of `User.updateOne`: `{ $set: { name, email } }` or
`{ $set: { password } }`. -/
inductive Update where
  | profile (name email : String)
  | password (password : String)
deriving DecidableEq

/-- The object `updateOne` resolves to. -/
structure UpdateResult where
  matchedCount : Nat
  modifiedCount : Nat
deriving DecidableEq

/-- Truthiness of the object `updateOne` resolves to: every object is truthy. -/
def UpdateResult.truthy (_r : UpdateResult) : Bool := true

/-- The object `deleteOne` resolves to. -/
structure DeleteResult where
  deletedCount : Nat
deriving DecidableEq

/-- The model `User` of `require('../../../models')`, over a store state `σ`: each
operation either resolves or rejects; the writing ones also give the next state.
`find q sortParams skip limit` is `User.find(q).sort(sortParams).skip(skip).limit(limit)`.
The regular expressions of the filters are kept with the model that evaluates them:
`validPattern p` tells whether `p` is a pattern the constructor `new RegExp(p, 'i')`
accepts (it throws a `SyntaxError` on any other, such as `[`). -/
structure UserModel (σ : Type) where
  validPattern : String → Bool
  countDocuments : Query → σ → Except JsError Nat
  find : Query → SortParams → Int → Nat → σ → Except JsError (List User)
  findById : String → σ → Except JsError (Option User)
  findOne : String → σ → Except JsError (Option User)
  create : String → String → String → σ → Except JsError User × σ
  updateOne : String → Update → σ → Except JsError UpdateResult × σ
  deleteOne : String → σ → Except JsError DeleteResult × σ

/-- What users-service.js requires: the model behind the repository and the two helpers of
utils/password (`hash(plaintext) -> hash`, `matches(plaintext, hash) -> bool`). -/
structure UsersDeps (σ : Type) where
  User : UserModel σ
  hashPassword : String → String
  passwordMatched : String → String → Bool

/-- A call that leaves the two modules: an operation of the model or a helper. -/
inductive Call where
  | countDocuments (query : Query)
  | find (query : Query) (sortParams : SortParams) (skip : Int) (limit : Nat)
  | findById (id : String)
  | findOne (email : String)
  | create (name email password : String)
  | updateOne (id : String) (update : Update)
  | deleteOne (id : String)
  | hashPassword (password : String)
  | passwordMatched (password hash : String)
deriving DecidableEq

/-- What running an asynchronous function gives: how its promise settles, the store state
it leaves, and the external calls it made, in order. -/
structure Run (σ α : Type) where
  result : Except JsError α
  store : σ
  calls : List Call

/-- An asynchronous function body over the store state `σ`. -/
def Eff (σ α : Type) : Type := σ → Run σ α

/-- Return a value without any call. -/
def Eff.ret {σ α : Type} (a : α) : Eff σ α := fun s => ⟨.ok a, s, []⟩

/-- Sequencing (`await` then continue): a rejection ends the body. -/
def Eff.andThen {σ α β : Type} (m : Eff σ α) (f : α → Eff σ β) : Eff σ β := fun s =>
  let r := m s
  match r.result with
  | .error e => ⟨.error e, r.store, r.calls⟩
  | .ok a =>
    let r2 := f a r.store
    ⟨r2.result, r2.store, r.calls ++ r2.calls⟩

/-- The statement `try { body } catch (err) { handler }`. -/
def Eff.tryCatch {σ α : Type} (body : Eff σ α) (handler : JsError → Eff σ α) : Eff σ α :=
  fun s =>
    let r := body s
    match r.result with
    | .ok a => ⟨.ok a, r.store, r.calls⟩
    | .error e =>
      let r2 := handler e r.store
      ⟨r2.result, r2.store, r.calls ++ r2.calls⟩

/-- A reading operation of the model, logged. -/
def Eff.read {σ α : Type} (call : Call) (op : σ → Except JsError α) : Eff σ α :=
  fun s => ⟨op s, s, [call]⟩

/-- A writing operation of the model, logged. -/
def Eff.write {σ α : Type} (call : Call) (op : σ → Except JsError α × σ) : Eff σ α :=
  fun s => ⟨(op s).1, (op s).2, [call]⟩

/-- A helper call (no store access), logged. -/
def Eff.helper {σ α : Type} (call : Call) (value : α) : Eff σ α :=
  fun s => ⟨.ok value, s, [call]⟩

/-! ## users-repository.js -/

/-- The method `split(':')` on the characters of a string: the pieces between colons
(always at least one piece). -/
def splitColon : List Char → List (List Char)
  | [] => [[]]
  | c :: cs =>
    match splitColon cs with
    | [] => [[]]
    | p :: ps => if c = ':' then [] :: p :: ps else (c :: p) :: ps

/-- The pieces of `s.split(':')` as strings. -/
def jsSplit (s : String) : List String := (splitColon s.data).map String.mk

/-- Lines 17 and 18: `const [field, order] = sort.split(':')` and
`{ [field]: order === 'desc' ? -1 : 1 }`. -/
def sortParamsOf (sort : String) : SortParams :=
  let parts := jsSplit sort
  let field := parts.headD ""
  let order := parts.get? 1
  { field := field, direction := if order = some "desc" then -1 else 1 }

/-- The expression `new RegExp(pattern, 'i')`: a `SyntaxError` is thrown for a pattern
the constructor does not accept; an `undefined` pattern (`none`) gives the empty regular
expression. -/
def newRegExp (validPattern : String → Bool) (pattern : Option String) :
    Except JsError (Option String) :=
  match pattern with
  | none => .ok none
  | some p =>
    if validPattern p then .ok (some p)
    else .error (.syntaxError ("Invalid regular expression: /" ++ p ++ "/i"))

/-- Lines 20 to 22: the query is `{}` unless `search` is truthy (a non-empty string);
building the filter evaluates `new RegExp(search.split(':')[1], 'i')`, which can throw. -/
def queryOf (validPattern : String → Bool) (search : Option String) : Except JsError Query :=
  match search with
  | none => .ok none
  | some s =>
    if s = "" then .ok none
    else
      match newRegExp validPattern ((jsSplit s).get? 1) with
      | .error e => .error e
      | .ok pattern => .ok (some { field := (jsSplit s).headD "", pattern := pattern })

/-- The object `getUsers` of the repository resolves to. -/
structure PagedResult where
  page_number : Nat
  page_size : Nat
  count : Nat
  total_pages : JsNumber
  has_previous_page : Bool
  has_next_page : Bool
  data : List User
deriving DecidableEq

namespace UsersRepository

/-- The function `getUsers(page_number = 1, page_size = 10, sort = 'email:asc', search)`;
an argument that is `none` is `undefined`, which selects the default.  An exception thrown
while the query is built rejects the call before any store operation. -/
def getUsers {σ : Type} (M : UserModel σ) (page_number page_size : Option Nat)
    (sort search : Option String) : Eff σ PagedResult :=
  let page_number := page_number.getD 1
  let page_size := page_size.getD 10
  let sort := sort.getD "email:asc"
  let sortParams := sortParamsOf sort
  Eff.andThen (fun s => ⟨queryOf M.validPattern search, s, []⟩) fun query =>
  Eff.andThen (Eff.read (.countDocuments query) (M.countDocuments query)) fun totalUsers =>
  let total_pages := mathCeilDiv totalUsers page_size
  let has_previous_page := decide (page_number > 1)
  let has_next_page := total_pages.gtNat page_number
  let skip : Int := ((page_number : Int) - 1) * (page_size : Int)
  Eff.andThen (Eff.read (.find query sortParams skip page_size)
      (M.find query sortParams skip page_size)) fun users =>
  Eff.ret
    { page_number := page_number
      page_size := page_size
      count := users.length
      total_pages := total_pages
      has_previous_page := has_previous_page
      has_next_page := has_next_page
      data := users }

/-- The function `getUser(id)`: `User.findById(id)`. -/
def getUser {σ : Type} (M : UserModel σ) (id : String) : Eff σ (Option User) :=
  Eff.read (.findById id) (M.findById id)

/-- The function `createUser(name, email, password)`: `User.create({ name, email, password })`. -/
def createUser {σ : Type} (M : UserModel σ) (name email password : String) : Eff σ User :=
  Eff.write (.create name email password) (M.create name email password)

/-- The function `updateUser(id, name, email)`:
`User.updateOne({ _id: id }, { $set: { name, email } })`. -/
def updateUser {σ : Type} (M : UserModel σ) (id name email : String) : Eff σ UpdateResult :=
  Eff.write (.updateOne id (.profile name email)) (M.updateOne id (.profile name email))

/-- The function `deleteUser(id)`: `User.deleteOne({ _id: id })`. -/
def deleteUser {σ : Type} (M : UserModel σ) (id : String) : Eff σ DeleteResult :=
  Eff.write (.deleteOne id) (M.deleteOne id)

/-- The function `getUserByEmail(email)`: `User.findOne({ email })`. -/
def getUserByEmail {σ : Type} (M : UserModel σ) (email : String) : Eff σ (Option User) :=
  Eff.read (.findOne email) (M.findOne email)

/-- The function `changePassword(id, password)`:
`User.updateOne({ _id: id }, { $set: { password } })`. -/
def changePassword {σ : Type} (M : UserModel σ) (id password : String) : Eff σ UpdateResult :=
  Eff.write (.updateOne id (.password password)) (M.updateOne id (.password password))

end UsersRepository

/-! ## users-service.js -/

/-- The object `{ id, name, email }` built by the service. -/
structure PublicUser where
  id : String
  name : String
  email : String
deriving DecidableEq

/-- The literal `{ id: user.id, name: user.name, email: user.email }`. -/
def publicUser (user : User) : PublicUser :=
  { id := user.id, name := user.name, email := user.email }

/-- A value the loop of the service's `getUsers` can be run on: an array of documents, or
the object the repository's `getUsers` resolves to. -/
inductive Listing where
  | array (xs : List User)
  | paged (r : PagedResult)

/-- The expression `users.length`: the length of an array; `undefined` (`none`) on the
paged object, whose properties are `page_number`, `page_size`, `count`, `total_pages`,
`has_previous_page`, `has_next_page` and `data`. -/
def Listing.length : Listing → Option Nat
  | .array xs => some xs.length
  | .paged _ => none

/-- The expression `users[i]`: `undefined` (`none`) past the end of an array, and on the
paged object, which has no indexed property. -/
def Listing.index : Listing → Nat → Option User
  | .array xs, i => xs.get? i
  | .paged _, _ => none

/-- The loop `for (let i = 0; i < users.length; i += 1)` of the service's `getUsers`:
`i < undefined` is false, so an undefined length gives no iteration; reading `user.id`
of an undefined `user` throws. -/
def projectLoop (users : Listing) : Except JsError (List PublicUser) :=
  (List.range ((users.length).getD 0)).mapM fun i =>
    match users.index i with
    | some user => .ok (publicUser user)
    | none => .error (.typeError "Cannot read properties of undefined (reading \x27id\x27)")

namespace UsersService

/-- The function `getUsers()` of the service: it calls the repository's `getUsers` without
arguments and loops over what that resolves to. -/
def getUsers {σ : Type} (deps : UsersDeps σ) : Eff σ (List PublicUser) :=
  Eff.andThen (UsersRepository.getUsers deps.User none none none none) fun users =>
  fun s => ⟨projectLoop (.paged users), s, []⟩

/-- The function `getUser(id)` of the service. -/
def getUser {σ : Type} (deps : UsersDeps σ) (id : String) : Eff σ (Option PublicUser) :=
  Eff.andThen (UsersRepository.getUser deps.User id) fun user =>
  match user with
  | none => Eff.ret none
  | some user => Eff.ret (some (publicUser user))

/-- The function `createUser(name, email, password)` of the service; `some true` is the
returned `true`. -/
def createUser {σ : Type} (deps : UsersDeps σ) (name email password : String) :
    Eff σ (Option Bool) :=
  Eff.andThen (Eff.helper (.hashPassword password) (deps.hashPassword password))
    fun hashedPassword =>
  Eff.tryCatch
    (Eff.andThen (UsersRepository.createUser deps.User name email hashedPassword) fun _ =>
      Eff.ret (some true))
    (fun _err => Eff.ret none)

/-- The function `updateUser(id, name, email)` of the service. -/
def updateUser {σ : Type} (deps : UsersDeps σ) (id name email : String) : Eff σ (Option Bool) :=
  Eff.andThen (UsersRepository.getUser deps.User id) fun user =>
  match user with
  | none => Eff.ret none
  | some _ =>
    Eff.tryCatch
      (Eff.andThen (UsersRepository.updateUser deps.User id name email) fun _ =>
        Eff.ret (some true))
      (fun _err => Eff.ret none)

/-- The function `deleteUser(id)` of the service. -/
def deleteUser {σ : Type} (deps : UsersDeps σ) (id : String) : Eff σ (Option Bool) :=
  Eff.andThen (UsersRepository.getUser deps.User id) fun user =>
  match user with
  | none => Eff.ret none
  | some _ =>
    Eff.tryCatch
      (Eff.andThen (UsersRepository.deleteUser deps.User id) fun _ => Eff.ret (some true))
      (fun _err => Eff.ret none)

/-- The function `emailIsRegistered(email)` of the service. -/
def emailIsRegistered {σ : Type} (deps : UsersDeps σ) (email : String) : Eff σ Bool :=
  Eff.andThen (UsersRepository.getUserByEmail deps.User email) fun user =>
  Eff.ret user.isSome

/-- The function `checkPassword(userId, password)` of the service: reading `user.password`
of a missing user throws. -/
def checkPassword {σ : Type} (deps : UsersDeps σ) (userId password : String) : Eff σ Bool :=
  Eff.andThen (UsersRepository.getUser deps.User userId) fun user =>
  match user with
  | none => fun s =>
    ⟨.error (.typeError "Cannot read properties of null (reading \x27password\x27)"), s, []⟩
  | some user =>
    Eff.helper (.passwordMatched password user.password)
      (deps.passwordMatched password user.password)

/-- The function `changePassword(userId, password)` of the service: the write is awaited
outside any `try`. -/
def changePassword {σ : Type} (deps : UsersDeps σ) (userId password : String) :
    Eff σ (Option Bool) :=
  Eff.andThen (UsersRepository.getUser deps.User userId) fun user =>
  match user with
  | none => Eff.ret none
  | some _ =>
    Eff.andThen (Eff.helper (.hashPassword password) (deps.hashPassword password))
      fun hashedPassword =>
    Eff.andThen (UsersRepository.changePassword deps.User userId hashedPassword)
      fun changeSuccess =>
    if !changeSuccess.truthy then Eff.ret none else Eff.ret (some true)

end UsersService

/-! ### The functions at the bottom of users-service.js -/

/-- An element of the sample array: `{ id, name, email }` with a numeric id. -/
structure SampleUser where
  id : Nat
  name : String
  email : String
deriving DecidableEq

/-- The constant `users` ("Contoh User Data"). -/
def users : List SampleUser :=
  [ { id := 1, name := "Johni", email := "johni@example.com" },
    { id := 2, name := "Hana", email := "hana@example.com" },
    { id := 3, name := "Dadang", email := "dadang@example.com" },
    { id := 4, name := "Acep", email := "acep@test.com" },
    { id := 5, name := "Bob", email := "bob@test.com" },
    { id := 6, name := "Charlie", email := "charlie@example.com" },
    { id := 7, name := "Eveline", email := "eveline@test.com" },
    { id := 8, name := "Jack", email := "jack@example.com" } ]

/-- Whether the list `t` starts the list `s`. -/
def startsWith {α : Type} [DecidableEq α] : List α → List α → Bool
  | _, [] => true
  | [], _ :: _ => false
  | a :: s, b :: t => decide (a = b) && startsWith s t

/-- Whether `t` occurs in `s` as a contiguous block. -/
def occursIn {α : Type} [DecidableEq α] : List α → List α → Bool
  | [], t => startsWith [] t
  | a :: s, t => startsWith (a :: s) t || occursIn s t

/-- The method `s.includes(t)`: an exact (case-sensitive) substring test. -/
def includes (s t : String) : Bool := occursIn s.data t.data

/-- The function `filterUsers(users, searchTerm)`; `!searchTerm` holds for `undefined`
(`none`) and for the empty string. -/
def filterUsers (users : List SampleUser) (searchTerm : Option String) : List SampleUser :=
  match searchTerm with
  | none => users
  | some term => if term = "" then users else users.filter fun user => includes user.email term

/-- The UTF-16 code units of a string, which the relational operators compare. -/
def codeUnits (s : String) : List Nat :=
  s.data.flatMap fun c =>
    if c.toNat < 65536 then [c.toNat]
    else [55296 + (c.toNat - 65536) / 1024, 56320 + (c.toNat - 65536) % 1024]

/-- Lexicographic `<` on code-unit sequences. -/
def lexLt : List Nat → List Nat → Bool
  | [], [] => false
  | [], _ :: _ => true
  | _ :: _, [] => false
  | a :: s, b :: t => decide (a < b) || (decide (a = b) && lexLt s t)

/-- The comparison `a[sortBy] < b[sortBy]` on two sample users: numeric on `id`, by code
units on `name` and `email`, and false on any other key (both sides `undefined`). -/
def fieldLt (sortBy : String) (a b : SampleUser) : Bool :=
  if sortBy = "id" then decide (a.id < b.id)
  else if sortBy = "name" then lexLt (codeUnits a.name) (codeUnits b.name)
  else if sortBy = "email" then lexLt (codeUnits a.email) (codeUnits b.email)
  else false

/-- The comparator given to `users.sort` in `sortUsers`; `a[sortBy] > b[sortBy]` is
`b[sortBy] < a[sortBy]`. -/
def compareUsers (sortBy : String) (sortOrder : Option String) (a b : SampleUser) : Int :=
  if fieldLt sortBy a b then (if sortOrder = some "asc" then -1 else 1)
  else if fieldLt sortBy b a then (if sortOrder = some "asc" then 1 else -1)
  else 0

/-- The method `Array.prototype.sort(compare)`: a stable sort that puts `a` before `b`
when `compare(a, b) <= 0`. -/
def arraySort {α : Type} (compare : α → α → Int) (xs : List α) : List α :=
  xs.insertionSort fun a b => compare a b ≤ 0

/-- The function `sortUsers(users, sortBy, sortOrder)`; `sortOrder` is `none` when the
argument is `undefined`. -/
def sortUsers (users : List SampleUser) (sortBy : String) (sortOrder : Option String) :
    List SampleUser :=
  arraySort (compareUsers sortBy sortOrder) users

/-- The function `paginateUsers(users, pageNumber, pageSize)` for `pageNumber >= 1`:
`users.slice(startIndex, startIndex + pageSize)`. -/
def paginateUsers (users : List SampleUser) (pageNumber pageSize : Nat) : List SampleUser :=
  (users.drop ((pageNumber - 1) * pageSize)).take pageSize

/-- The claim's reading of a match: `term` occurs in `email` once both are lower-cased
(a case-insensitive substring). -/
def matchesIgnoringCase (email term : String) : Bool :=
  occursIn (email.data.map Char.toLower) (term.data.map Char.toLower)

/-! ## An in-memory document collection -/

/-- The parts of the store's query engine the code does not fix: which patterns are
regular expressions, whether a document satisfies a regular-expression filter, which of
two documents a sort object puts first, and the id given to a new document. -/
structure QueryEngine where
  validPattern : String → Bool
  matchDoc : RegexFilter → User → Bool
  before : SortParams → User → User → Bool
  newId : List User → String

/-- The documents a query selects: all of them for `{}`. -/
def QueryEngine.select (engine : QueryEngine) (query : Query) (docs : List User) : List User :=
  match query with
  | none => docs
  | some f => docs.filter (engine.matchDoc f)

/-- The cursor method `.limit(n)`: at most `n` documents, and no limit for `n = 0`. -/
def applyLimit (limit : Nat) (docs : List User) : List User :=
  if limit = 0 then docs else docs.take limit

/-- Apply a `$set` to a document. -/
def applyUpdate (update : Update) (u : User) : User :=
  match update with
  | .profile name email => { u with name := name, email := email }
  | .password password => { u with password := password }

/-- Apply `f` to the first document with the given id. -/
def modifyFirst (id : String) (f : User → User) : List User → List User
  | [] => []
  | u :: rest => if u.id = id then f u :: rest else u :: modifyFirst id f rest

/-- Remove the first document with the given id. -/
def removeFirst (id : String) : List User → List User
  | [] => []
  | u :: rest => if u.id = id then rest else u :: removeFirst id rest

/-- Modelled from the spec: the document collection behind the model `User` (the models
module is not among the sources).  The state is the list of stored documents; the listing
applies the filter, counts, sorts, skips and takes; `email` is unique, so a write that would
store an email twice is rejected; a negative skip is rejected. -/
def memoryModel (engine : QueryEngine) : UserModel (List User) where
  validPattern := engine.validPattern
  countDocuments query docs := .ok (engine.select query docs).length
  find query sortParams skip limit docs :=
    if skip < 0 then .error (.rejection "skip must be non-negative")
    else
      .ok (applyLimit limit
        (((engine.select query docs).insertionSort
            fun a b => engine.before sortParams a b = true).drop skip.toNat))
  findById id docs := .ok (docs.find? fun u => decide (u.id = id))
  findOne email docs := .ok (docs.find? fun u => decide (u.email = email))
  create name email password docs :=
    if docs.any (fun u => decide (u.email = email)) then
      (.error (.rejection "E11000 duplicate key error"), docs)
    else
      let u : User :=
        { id := engine.newId docs, name := name, email := email, password := password }
      (.ok u, docs ++ [u])
  updateOne id update docs :=
    match docs.find? fun u => decide (u.id = id) with
    | none => (.ok { matchedCount := 0, modifiedCount := 0 }, docs)
    | some u =>
      if docs.any (fun v => decide (v.id ≠ id ∧ v.email = (applyUpdate update u).email)) then
        (.error (.rejection "E11000 duplicate key error"), docs)
      else
        (.ok { matchedCount := 1, modifiedCount := if applyUpdate update u = u then 0 else 1 },
          modifyFirst id (applyUpdate update) docs)
  deleteOne id docs :=
    match docs.find? fun u => decide (u.id = id) with
    | none => (.ok { deletedCount := 0 }, docs)
    | some _ => (.ok { deletedCount := 1 }, removeFirst id docs)

/-- A model whose reads are those of `M` and whose writes all reject, as when the
connection to the store is lost after the lookup. -/
def withFailingWrites {σ : Type} (M : UserModel σ) : UserModel σ :=
  { M with
    create := fun _ _ _ s => (.error (.rejection "connection lost"), s)
    updateOne := fun _ _ s => (.error (.rejection "connection lost"), s)
    deleteOne := fun _ s => (.error (.rejection "connection lost"), s) }

/-- A query engine for examples: it accepts the patterns made of letters, digits and `@`
only (literal patterns) and rejects every pattern with another character, among them the
invalid `[`; a filter on `email` selects the documents whose email contains the pattern
ignoring case, documents are ordered by the code units of their email, and a new id is the
number of stored documents written in tally marks. -/
def sampleEngine : QueryEngine where
  validPattern p := p.data.all fun c => c.isAlphanum || decide (c = '@')
  matchDoc f u :=
    match f.pattern with
    | none => true
    | some p => if f.field = "email" then matchesIgnoringCase u.email p else false
  before sp a b :=
    if sp.direction = -1 then !lexLt (codeUnits a.email) (codeUnits b.email)
    else !lexLt (codeUnits b.email) (codeUnits a.email)
  newId docs := String.mk (List.replicate (docs.length + 1) 'I')

/-- The dependencies of the users service over the in-memory collection; the hash of the
examples prepends a marker to the plaintext. -/
def sampleDeps : UsersDeps (List User) where
  User := memoryModel sampleEngine
  hashPassword p := "hash:" ++ p
  passwordMatched p h := decide (h = "hash:" ++ p)

/-- Modelled from the spec: the tracker operation `getInfo(email) -> {count, lastAttemptAt}
| absent`, which authentication-service.js neither defines nor exports, added to the
module's exports under the name the controller calls. -/
def servicesWithAttemptInfo : AuthenticationServices :=
  { checkLoginCredentials := checkLoginCredentials
    getLoginAttemptInfo := some fun email loginAttempts => loginAttempts email }

/-! ## Sample data for the authentication flow -/

/-- A stored user of the examples. -/
def acep : User :=
  { id := "I", name := "Acep", email := "acep@test.com", password := "hash:rahasia" }

/-- Collaborators of the examples: the store holds `acep` only. -/
def sampleAuthDeps : AuthDeps where
  getUserByEmail email := .ok (if email = "acep@test.com" then some acep else none)
  passwordMatched p h := decide (h = "hash:" ++ p)
  generateToken email id := "token:" ++ email ++ ":" ++ id

/-- A `loginAttempts` object holding one record for `acep@test.com`. -/
def sampleAttempts (count : Nat) (lastAttempt : Int) : LoginAttempts :=
  Function.update LoginAttempts.empty "acep@test.com"
    (some { count := count, lastAttempt := lastAttempt })

/-! ## Sample data for the user listing -/

/-- The number of stored documents that match the query. -/
def totalMatching (engine : QueryEngine) (query : Query) (docs : List User) : Nat :=
  (engine.select query docs).length

/-- A stored document for a sample user, with a placeholder password hash. -/
def SampleUser.toDoc (u : SampleUser) : User :=
  { id := String.mk (List.replicate u.id 'I'), name := u.name, email := u.email,
    password := "hash:rahasia" }

/-- The eight sample users as stored documents. -/
def sampleDocs : List User := users.map SampleUser.toDoc

/-- The sample dependencies with a store whose writes reject. -/
def failingDeps : UsersDeps (List User) :=
  { sampleDeps with User := withFailingWrites (memoryModel sampleEngine) }

/-- A sample user whose email has its domain in capitals. -/
def acepUpper : SampleUser := { id := 4, name := "Acep", email := "acep@TEST.com" }

/-! ## Theorems: the login attempt tracker -/

/-- A failed check stores the record computed by `recordAttempt` and resolves to `null`. -/
theorem checkLoginCredentials_of_fail (deps : AuthDeps) (nowCheck nowStamp : Int)
    (email password : String) (loginAttempts : LoginAttempts)
    (hfail : CredentialsFail deps email password) :
    checkLoginCredentials deps nowCheck nowStamp email password loginAttempts =
      (.ok none, Function.update loginAttempts email
        (some (recordAttempt nowCheck nowStamp (loginAttempts email)))) := by
  rcases hfail with h | ⟨u, h, hp⟩
  · simp [checkLoginCredentials, h]
  · simp [checkLoginCredentials, h, hp]

/-- Every call of the handler whose credential check fails ends in `next` with the
`TypeError` of the missing `getLoginAttemptInfo`, whatever the record holds. -/
theorem login_failure_passes_typeError (deps : AuthDeps) (nowCheck nowStamp : Int)
    (email password : String) (loginAttempts : LoginAttempts)
    (hfail : CredentialsFail deps email password) :
    (login authenticationServices deps nowCheck nowStamp email password loginAttempts).1 =
      .next notAFunction := by
  simp [login, authenticationServices,
    checkLoginCredentials_of_fail deps nowCheck nowStamp email password loginAttempts hfail]

/-- A failed call that finds a record stamped at most 30 minutes before the reset test
raises its count by one. -/
theorem failed_call_increments (deps : AuthDeps) (nowCheck nowStamp : Int)
    (email password : String) (loginAttempts : LoginAttempts) (c : Nat) (t : Int)
    (hrec : loginAttempts email = some { count := c, lastAttempt := t })
    (hwin : nowCheck - t ≤ 1800000)
    (hfail : CredentialsFail deps email password) :
    (checkLoginCredentials deps nowCheck nowStamp email password loginAttempts).2 email =
      some { count := c + 1, lastAttempt := nowStamp } := by
  have h2 : ¬ (1800000 < nowCheck - t) := not_lt.mpr hwin
  rw [checkLoginCredentials_of_fail deps nowCheck nowStamp email password _ hfail, hrec]
  simp [recordAttempt, lockoutWindowMs, h2]

/-- With a service module that also exports the tracker's `getInfo` as
`getLoginAttemptInfo`, a failed call that finds a record of count at least 4, stamped at
most 30 minutes earlier, passes the lockout error to `next`: the fifth and every later
consecutive failure is answered with `TOO_MANY_ATTEMPTS`. -/
theorem login_locks_out_with_attempt_info (deps : AuthDeps) (nowCheck nowStamp : Int)
    (email password : String) (loginAttempts : LoginAttempts) (c : Nat) (t : Int)
    (hrec : loginAttempts email = some { count := c, lastAttempt := t })
    (hcount : 4 ≤ c) (hwin : nowCheck - t ≤ 1800000)
    (hfail : CredentialsFail deps email password) :
    (login servicesWithAttemptInfo deps nowCheck nowStamp email password loginAttempts).1 =
      .next (.responder .TOO_MANY_ATTEMPTS tooManyAttemptsMessage) := by
  have h2 : ¬ (1800000 < nowCheck - t) := not_lt.mpr hwin
  have h5 : 5 ≤ c + 1 := by omega
  simp [login, servicesWithAttemptInfo,
    checkLoginCredentials_of_fail deps nowCheck nowStamp email password loginAttempts hfail,
    hrec, recordAttempt, lockoutWindowMs, h2, h5]

/-- The six calls of the failing input below, run against the module with
`getLoginAttemptInfo`: the sixth call passes the lockout error. -/
theorem login_sixth_failure_with_attempt_info :
    (loginCalls servicesWithAttemptInfo sampleAuthDeps "nobody@test.com" "x"
        [(1000, 1000), (2000, 2000), (3000, 3000), (4000, 4000), (5000, 5000), (6000, 6000)]
        LoginAttempts.empty).1 =
      some (.next (.responder .TOO_MANY_ATTEMPTS tooManyAttemptsMessage)) := by
  decide

/-- C1 (evaluation at the failing input): six consecutive calls of the handler for
`nobody@test.com`, which no stored user has, one second apart and starting from the empty
`loginAttempts`.  The sixth call passes the `TypeError` of the missing
`getLoginAttemptInfo` to `next`; it is neither the lockout error nor the
wrong-credentials error, although the record then has count 6. -/
theorem login_sixth_failure_passes_typeError :
    (loginCalls authenticationServices sampleAuthDeps "nobody@test.com" "x"
        [(1000, 1000), (2000, 2000), (3000, 3000), (4000, 4000), (5000, 5000), (6000, 6000)]
        LoginAttempts.empty).1 = some (.next notAFunction) ∧
      notAFunction ≠ .responder .TOO_MANY_ATTEMPTS tooManyAttemptsMessage ∧
      notAFunction ≠ .responder .INVALID_CREDENTIALS invalidCredentialsMessage ∧
      (loginCalls authenticationServices sampleAuthDeps "nobody@test.com" "x"
        [(1000, 1000), (2000, 2000), (3000, 3000), (4000, 4000), (5000, 5000), (6000, 6000)]
        LoginAttempts.empty).2 "nobody@test.com" = some { count := 6, lastAttempt := 6000 } := by
  refine ⟨by decide, by decide, by decide, by decide⟩

/-- C2: whatever `loginAttempts` holds and whatever the clock reads, a call in which the
lookup finds the user and the password matches resolves to the success payload and leaves
no record for the email; a failed call for the same email right after it resolves to
`null` and leaves a record with count 1 (stamped with that call's clock reading). -/
theorem checkLoginCredentials_success_clears (deps : AuthDeps) (nowCheck nowStamp : Int)
    (email password : String) (loginAttempts : LoginAttempts) (u : User)
    (huser : deps.getUserByEmail email = .ok (some u))
    (hmatch : deps.passwordMatched password u.password = true) :
    (checkLoginCredentials deps nowCheck nowStamp email password loginAttempts).1 =
        .ok (some { email := u.email, name := u.name, user_id := u.id,
                    token := deps.generateToken u.email u.id }) ∧
      (checkLoginCredentials deps nowCheck nowStamp email password loginAttempts).2 email = none ∧
      ∀ (deps2 : AuthDeps) (nowCheck2 nowStamp2 : Int) (password2 : String),
        CredentialsFail deps2 email password2 →
        (checkLoginCredentials deps2 nowCheck2 nowStamp2 email password2
            (checkLoginCredentials deps nowCheck nowStamp email password loginAttempts).2).1 =
          .ok none ∧
        (checkLoginCredentials deps2 nowCheck2 nowStamp2 email password2
            (checkLoginCredentials deps nowCheck nowStamp email password loginAttempts).2).2 email =
          some { count := 1, lastAttempt := nowStamp2 } := by
  have h1 : checkLoginCredentials deps nowCheck nowStamp email password loginAttempts =
      (.ok (some { email := u.email, name := u.name, user_id := u.id,
                   token := deps.generateToken u.email u.id }),
        Function.update (Function.update loginAttempts email
          (some (recordAttempt nowCheck nowStamp (loginAttempts email)))) email none) := by
    simp [checkLoginCredentials, huser, hmatch]
  refine ⟨by rw [h1], by rw [h1]; simp, ?_⟩
  intro deps2 nowCheck2 nowStamp2 password2 hfail
  rw [checkLoginCredentials_of_fail deps2 nowCheck2 nowStamp2 email password2 _ hfail, h1]
  simp [recordAttempt]

/-- C2 at a concrete input: `acep@test.com` logs in with the right password while the
record for that email has count 7. -/
theorem checkLoginCredentials_success_clears_witness :
    sampleAuthDeps.getUserByEmail "acep@test.com" = .ok (some acep) ∧
      sampleAuthDeps.passwordMatched "rahasia" acep.password = true ∧
      (checkLoginCredentials sampleAuthDeps 9000 9001 "acep@test.com" "rahasia"
          (sampleAttempts 7 8000)).2 "acep@test.com" = none :=
  ⟨rfl, by decide,
    (checkLoginCredentials_success_clears sampleAuthDeps 9000 9001 "acep@test.com" "rahasia"
      (sampleAttempts 7 8000) acep rfl (by decide)).2.1⟩

/-- C3: when `loginAttempts` holds `{ count: c, lastAttempt: t }` for the email with
`t > 0`, a failed call leaves `{ count: 1, lastAttempt: now }` if the clock of the reset
test reads more than 30 minutes (1 800 000 ms) after `t`, and
`{ count: c + 1, lastAttempt: now }` otherwise, `now` being the reading that is stored.
The claim's single `now` is the case `nowCheck = nowStamp`. -/
theorem checkLoginCredentials_failed_record (deps : AuthDeps) (nowCheck nowStamp : Int)
    (email password : String) (loginAttempts : LoginAttempts) (c : Nat) (t : Int)
    (hrec : loginAttempts email = some { count := c, lastAttempt := t }) (ht : 0 < t)
    (hfail : CredentialsFail deps email password) :
    (nowCheck - t > 1800000 →
        (checkLoginCredentials deps nowCheck nowStamp email password loginAttempts).2 email =
          some { count := 1, lastAttempt := nowStamp }) ∧
      (nowCheck - t ≤ 1800000 →
        (checkLoginCredentials deps nowCheck nowStamp email password loginAttempts).2 email =
          some { count := c + 1, lastAttempt := nowStamp }) := by
  rw [checkLoginCredentials_of_fail deps nowCheck nowStamp email password _ hfail, hrec]
  constructor
  · intro h
    simp [recordAttempt, lockoutWindowMs, ht, h]
  · intro h
    have h2 : ¬ (1800000 < nowCheck - t) := not_lt.mpr h
    simp [recordAttempt, lockoutWindowMs, h2]

/-- C3 at a concrete input: a record `{ count: 4, lastAttempt: 1000 }` and a failed call
at 1 801 001 ms (stale, reset to 1). -/
theorem checkLoginCredentials_failed_record_witness :
    sampleAttempts 4 1000 "acep@test.com" = some { count := 4, lastAttempt := 1000 } ∧
      (0 : Int) < 1000 ∧
      CredentialsFail sampleAuthDeps "acep@test.com" "salah" ∧
      (checkLoginCredentials sampleAuthDeps 1801001 1801001 "acep@test.com" "salah"
          (sampleAttempts 4 1000)).2 "acep@test.com" =
        some { count := 1, lastAttempt := 1801001 } :=
  ⟨by decide, by decide, Or.inr ⟨acep, rfl, by decide⟩,
    (checkLoginCredentials_failed_record sampleAuthDeps 1801001 1801001 "acep@test.com" "salah"
      (sampleAttempts 4 1000) 4 1000 (by decide) (by decide)
      (Or.inr ⟨acep, rfl, by decide⟩)).1 (by decide)⟩

/-! ## Theorems: the user listing -/

/-- The integer expression of `mathCeilDiv` is the ceiling of the quotient. -/
theorem ceilDiv_eq_ceil (T ps : Nat) (hps : 1 ≤ ps) :
    (T + ps - 1) / ps = ⌈(T : ℚ) / (ps : ℚ)⌉₊ := by
  apply eq_of_forall_ge_iff
  intro n
  have hq : (0 : ℚ) < (ps : ℚ) := by exact_mod_cast hps
  rw [Nat.ceil_le, div_le_iff₀ hq]
  have h1 : (T + ps - 1) / ps ≤ n ↔ T ≤ n * ps := by
    rw [← Nat.lt_succ_iff, Nat.div_lt_iff_lt_mul (by omega), Nat.succ_mul]
    omega
  rw [h1]
  exact_mod_cast Iff.rfl

/-- The skip `(page_number - 1) * page_size` is a natural number for `page_number >= 1`. -/
theorem skip_toNat (pn ps : Nat) (hpn : 1 ≤ pn) :
    (((pn : Int) - 1) * (ps : Int)).toNat = (pn - 1) * ps := by
  have h : ((pn : Int) - 1) = ((pn - 1 : Nat) : Int) := by omega
  rw [h, ← Int.natCast_mul, Int.toNat_natCast]

/-- The repository's `getUsers` on the in-memory collection, evaluated for a search whose
query is built without an exception. -/
theorem getUsers_memory (engine : QueryEngine) (docs : List User)
    (page_number page_size : Nat) (sort search : Option String) (query : Query)
    (hsize : 1 ≤ page_size) (hpage : 1 ≤ page_number)
    (hquery : queryOf engine.validPattern search = .ok query) :
    (UsersRepository.getUsers (memoryModel engine) (some page_number) (some page_size)
        sort search docs).result =
      .ok
        { page_number := page_number
          page_size := page_size
          count := ((((engine.select query docs).insertionSort fun a b =>
              engine.before (sortParamsOf (sort.getD "email:asc")) a b = true).drop
                ((page_number - 1) * page_size)).take page_size).length
          total_pages := .finite ((totalMatching engine query docs + page_size - 1) / page_size)
          has_previous_page := decide (page_number > 1)
          has_next_page :=
            decide (page_number < (totalMatching engine query docs + page_size - 1) / page_size)
          data := (((engine.select query docs).insertionSort fun a b =>
              engine.before (sortParamsOf (sort.getD "email:asc")) a b = true).drop
                ((page_number - 1) * page_size)).take page_size } := by
  have hps : page_size ≠ 0 := by omega
  have hskip : ¬ (((page_number : Int) - 1) * (page_size : Int) < 0) := by
    have h : (0 : Int) ≤ (page_number : Int) - 1 := by omega
    have h2 : (0 : Int) ≤ (page_size : Int) := by omega
    exact not_lt.mpr (mul_nonneg h h2)
  simp [UsersRepository.getUsers, Eff.andThen, Eff.read, Eff.ret, hquery, memoryModel, hskip,
    applyLimit, hps, mathCeilDiv, JsNumber.gtNat, totalMatching, skip_toNat _ _ hpage]

/-- A search whose second part is a pattern `new RegExp` does not accept makes the
repository's `getUsers` reject with the `SyntaxError`, before any call to the store. -/
theorem getUsers_rejects_invalid_pattern {σ : Type} (M : UserModel σ)
    (page_number page_size : Option Nat) (sort : Option String) (search pattern : String)
    (s : σ) (hsearch : search ≠ "") (hsplit : (jsSplit search).get? 1 = some pattern)
    (hinvalid : M.validPattern pattern = false) :
    (UsersRepository.getUsers M page_number page_size sort (some search) s).result =
        .error (.syntaxError ("Invalid regular expression: /" ++ pattern ++ "/i")) ∧
      (UsersRepository.getUsers M page_number page_size sort (some search) s).calls = [] ∧
      (UsersRepository.getUsers M page_number page_size sort (some search) s).store = s := by
  have hq : queryOf M.validPattern (some search) =
      .error (.syntaxError ("Invalid regular expression: /" ++ pattern ++ "/i")) := by
    simp only [queryOf, newRegExp, hsplit, hinvalid, if_neg hsearch]
    rfl
  simp [UsersRepository.getUsers, Eff.andThen, hq]

/-- The search `email:[` on the sample collection: the call rejects with a `SyntaxError`. -/
theorem getUsers_invalid_pattern_example :
    (UsersRepository.getUsers (memoryModel sampleEngine) (some 1) (some 5) none
        (some "email:[") sampleDocs).result =
      .error (.syntaxError "Invalid regular expression: /[/i") :=
  (getUsers_rejects_invalid_pattern (memoryModel sampleEngine) (some 1) (some 5) none
    "email:[" "[" sampleDocs (by decide) (by decide) (by decide)).1

/-- C4: let the query of the call be built (absent search, or a search whose pattern
`new RegExp` accepts) and let `T` documents of the collection match it.  For
`page_size >= 1` and `page_number >= 1` the repository's `getUsers` resolves to an object
`r` with `total_pages = ceil(T / page_size)`, `has_previous_page = (page_number > 1)`,
`has_next_page = (page_number < total_pages)` and
`count = data.length = min(page_size, max(0, T - (page_number - 1) * page_size))`;
a page number beyond `total_pages` gives empty data and no next page; and `T = 8`,
`page_size = 5`, `page_number = 1` gives count 5, two pages, no previous and a next page. -/
theorem getUsers_page_fields (engine : QueryEngine) (docs : List User)
    (page_number page_size : Nat) (sort search : Option String) (query : Query)
    (hsize : 1 ≤ page_size) (hpage : 1 ≤ page_number)
    (hquery : queryOf engine.validPattern search = .ok query) :
    ∃ r : PagedResult,
      (UsersRepository.getUsers (memoryModel engine) (some page_number) (some page_size)
          sort search docs).result = .ok r ∧
      r.page_number = page_number ∧ r.page_size = page_size ∧
      r.total_pages =
        .finite ⌈(totalMatching engine query docs : ℚ) / (page_size : ℚ)⌉₊ ∧
      r.has_previous_page = decide (page_number > 1) ∧
      r.has_next_page =
        decide (page_number < ⌈(totalMatching engine query docs : ℚ) / (page_size : ℚ)⌉₊) ∧
      r.count = r.data.length ∧
      (r.count : Int) =
        min (page_size : Int)
          (max 0 ((totalMatching engine query docs : Int) -
            ((page_number : Int) - 1) * (page_size : Int))) ∧
      (⌈(totalMatching engine query docs : ℚ) / (page_size : ℚ)⌉₊ < page_number →
        r.data = [] ∧ r.has_next_page = false) ∧
      (totalMatching engine query docs = 8 → page_size = 5 → page_number = 1 →
        r.count = 5 ∧ r.total_pages = .finite 2 ∧ r.has_previous_page = false ∧
          r.has_next_page = true) := by
  refine ⟨_, getUsers_memory engine docs page_number page_size sort search query hsize hpage
    hquery, rfl, rfl, ?_, rfl, ?_, rfl, ?_, ?_, ?_⟩
  · rw [ceilDiv_eq_ceil _ _ hsize]
  · rw [ceilDiv_eq_ceil _ _ hsize]
  · have h2 : ((page_number : Int) - 1) * (page_size : Int) =
        (((page_number - 1) * page_size : Nat) : Int) := by
      push_cast
      congr 1
      omega
    rw [h2]
    simp only [List.length_take, List.length_drop, List.length_insertionSort, totalMatching]
    omega
  · intro hlt
    rw [← ceilDiv_eq_ceil _ _ hsize] at hlt
    have hle : totalMatching engine query docs ≤ (page_number - 1) * page_size := by
      have h3 : (totalMatching engine query docs + page_size - 1) / page_size <
          (page_number - 1) + 1 := by omega
      rw [Nat.div_lt_iff_lt_mul (by omega), Nat.succ_mul] at h3
      omega
    constructor
    · apply List.eq_nil_of_length_eq_zero
      simp only [List.length_take, List.length_drop, List.length_insertionSort]
      simp only [totalMatching] at hle
      omega
    · simp only [decide_eq_false_iff_not, not_lt]
      omega
  · intro hT hs hp
    subst hs hp
    simp only [List.length_take, List.length_drop, List.length_insertionSort]
    simp only [totalMatching] at hT
    simp [totalMatching, hT]

/-- C4 at a concrete input: the eight sample documents, no filter, page 1 of size 5. -/
theorem getUsers_page_fields_witness :
    1 ≤ 5 ∧ 1 ≤ 1 ∧ queryOf sampleEngine.validPattern none = .ok none ∧
      totalMatching sampleEngine none sampleDocs = 8 ∧
      ∃ r : PagedResult,
        (UsersRepository.getUsers (memoryModel sampleEngine) (some 1) (some 5)
            none none sampleDocs).result = .ok r ∧
        r.count = 5 ∧ r.total_pages = .finite 2 ∧ r.has_previous_page = false ∧
          r.has_next_page = true := by
  obtain ⟨r, hr, _, _, _, _, _, _, _, _, h8⟩ :=
    getUsers_page_fields sampleEngine sampleDocs 1 5 none none none (by decide) (by decide) rfl
  exact ⟨by decide, by decide, rfl, by decide, r, hr, h8 (by decide) rfl rfl⟩

/-- Whatever the store holds, the service's `getUsers()` resolves to the empty array as
soon as the repository's `getUsers()` resolves. -/
theorem service_getUsers_empty {σ : Type} (deps : UsersDeps σ) (s : σ) (r : PagedResult)
    (hrepo : (UsersRepository.getUsers deps.User none none none none s).result = .ok r) :
    (UsersService.getUsers deps s).result = .ok [] := by
  simp [UsersService.getUsers, Eff.andThen, hrepo, projectLoop, Listing.length]
  rfl

/-- The service's `getUser(id)` resolves to `{ id, name, email }` of the stored document,
and to `null` when there is none. -/
theorem service_getUser_projects {σ : Type} (deps : UsersDeps σ) (id : String) (s : σ)
    (found : Option User) (hfind : deps.User.findById id s = .ok found) :
    (UsersService.getUser deps id s).result = .ok (found.map publicUser) := by
  cases found <;>
    simp [UsersService.getUser, UsersRepository.getUser, Eff.andThen, Eff.read, Eff.ret, hfind]

/-- C5 (evaluation at the failing input): on the eight sample documents the repository's
`getUsers()` resolves to an object whose `data` holds all eight, and the service's
`getUsers()` resolves to the empty array: its loop reads `length` of that object, which is
undefined.  Run on the array `data` itself the same loop gives the eight projections. -/
theorem service_getUsers_drops_every_record :
    (∃ r : PagedResult,
        (UsersRepository.getUsers sampleDeps.User none none none none sampleDocs).result = .ok r ∧
        r.data.length = 8 ∧
        projectLoop (.array r.data) = .ok (r.data.map publicUser)) ∧
      (UsersService.getUsers sampleDeps sampleDocs).result = .ok [] :=
  ⟨⟨_, rfl, by decide, rfl⟩, rfl⟩

/-! ## Theorems: the functions at the bottom of users-service.js -/

/-- `startsWith s t` holds exactly when `s` is `t` followed by something. -/
theorem startsWith_iff {α : Type} [DecidableEq α] (s t : List α) :
    startsWith s t = true ↔ ∃ post, s = t ++ post := by
  induction s generalizing t with
  | nil =>
    cases t with
    | nil => simp [startsWith]
    | cons b t => simp [startsWith]
  | cons a s ih =>
    cases t with
    | nil => simp [startsWith]
    | cons b t =>
      simp only [startsWith, Bool.and_eq_true, decide_eq_true_eq, ih, List.cons_append,
        List.cons.injEq]
      constructor
      · rintro ⟨h, post, hp⟩
        exact ⟨post, h, hp⟩
      · rintro ⟨post, h, hp⟩
        exact ⟨h, post, hp⟩

/-- `occursIn s t` holds exactly when `t` is a contiguous block of `s`. -/
theorem occursIn_iff {α : Type} [DecidableEq α] (s t : List α) :
    occursIn s t = true ↔ ∃ pre post, s = pre ++ t ++ post := by
  induction s with
  | nil =>
    simp only [occursIn, startsWith_iff]
    constructor
    · rintro ⟨post, h⟩
      exact ⟨[], post, by simpa using h⟩
    · rintro ⟨pre, post, h⟩
      have h1 : pre ++ t ++ post = [] := h.symm
      simp only [List.append_eq_nil] at h1
      exact ⟨[], by simp [h1.1.2]⟩
  | cons a s ih =>
    simp only [occursIn, Bool.or_eq_true, startsWith_iff, ih]
    constructor
    · rintro (⟨post, h⟩ | ⟨pre, post, h⟩)
      · exact ⟨[], post, by simpa using h⟩
      · exact ⟨a :: pre, post, by simp [h]⟩
    · rintro ⟨pre, post, h⟩
      cases pre with
      | nil => exact Or.inl ⟨post, by simpa using h⟩
      | cons b pre =>
        simp only [List.cons_append, List.cons.injEq] at h
        exact Or.inr ⟨pre, post, h.2⟩

/-- C6 (counterexample): for the one-user list `acep@TEST.com` and the term `test`,
`filterUsers` returns no user, while the email contains the term as a case-insensitive
substring, so the selection the claim describes is the whole list. -/
theorem filterUsers_not_case_insensitive :
    filterUsers [acepUpper] (some "test") = [] ∧
      ([acepUpper].filter fun u => matchesIgnoringCase u.email "test") = [acepUpper] ∧
      ¬ (filterUsers [acepUpper] (some "test") =
        [acepUpper].filter fun u => matchesIgnoringCase u.email "test") := by
  refine ⟨by decide, by decide, by decide⟩

/-- C6 (amended): `filterUsers(list, term)` returns, in their original order, exactly the
users whose email contains the term as an exact (case-sensitive) substring, and all users
when the term is absent or empty; when neither the email nor the term holds an upper-case
letter this is the case-insensitive substring test; on the eight sample users the term
`test` selects `acep@test.com`, `bob@test.com`, `eveline@test.com`; and for the search
`email:test` the repository builds the filter `{ email: RegExp('test', 'i') }`. -/
theorem filterUsers_exact_substring (list : List SampleUser) :
    filterUsers list none = list ∧ filterUsers list (some "") = list ∧
      (∀ term : String,
        filterUsers list (some term) = list.filter fun u => includes u.email term) ∧
      (∀ term : String, List.Sublist (filterUsers list (some term)) list) ∧
      (∀ (term : String) (u : SampleUser), u ∈ filterUsers list (some term) ↔
        u ∈ list ∧ ∃ pre post, u.email.data = pre ++ term.data ++ post) ∧
      (∀ email term : String, (∀ c ∈ email.data, c.toLower = c) →
        (∀ c ∈ term.data, c.toLower = c) →
        matchesIgnoringCase email term = includes email term) ∧
      (filterUsers users (some "test")).map SampleUser.email =
        ["acep@test.com", "bob@test.com", "eveline@test.com"] ∧
      (∀ validPattern : String → Bool, validPattern "test" = true →
        queryOf validPattern (some "email:test") =
          .ok (some { field := "email", pattern := some "test" })) := by
  have hfilter : ∀ term : String,
      filterUsers list (some term) = list.filter fun u => includes u.email term := by
    intro term
    by_cases h : term = ""
    · subst h
      have hall : (list.filter fun u => includes u.email "") = list := by
        apply List.filter_eq_self.mpr
        intro u _
        cases hd : u.email.data <;> simp [includes, occursIn, startsWith, hd]
      simp [filterUsers, hall]
    · simp [filterUsers, h]
  refine ⟨rfl, rfl, hfilter, ?_, ?_, ?_, by decide, ?_⟩
  · intro term
    rw [hfilter]
    exact List.filter_sublist _
  · intro term u
    rw [hfilter, List.mem_filter, includes, occursIn_iff]
  · intro email term he ht
    have h1 : email.data.map Char.toLower = email.data := by
      conv_rhs => rw [← List.map_id email.data]
      exact List.map_congr_left he
    have h2 : term.data.map Char.toLower = term.data := by
      conv_rhs => rw [← List.map_id term.data]
      exact List.map_congr_left ht
    simp [matchesIgnoringCase, includes, h1, h2]
  · intro validPattern hv
    have hs : (jsSplit "email:test").get? 1 = some "test" := by decide
    have hf : (jsSplit "email:test").headD "" = "email" := by decide
    simp only [queryOf, newRegExp, hs, hf, hv]
    rfl

/-- C6 (amended) at a concrete input: `acep@test.com` and `test` are in lower case, so the
exact and the case-insensitive test agree on them. -/
theorem filterUsers_exact_substring_witness :
    (∀ c ∈ "acep@test.com".data, c.toLower = c) ∧ (∀ c ∈ "test".data, c.toLower = c) ∧
      matchesIgnoringCase "acep@test.com" "test" = includes "acep@test.com" "test" :=
  ⟨by decide, by decide,
    (filterUsers_exact_substring users).2.2.2.2.2.1 "acep@test.com" "test"
      (by decide) (by decide)⟩

/-- No sequence is below itself. -/
theorem lexLt_irrefl (s : List Nat) : lexLt s s = false := by
  induction s with
  | nil => rfl
  | cons a s ih => simp [lexLt, ih]

/-- The lexicographic comparison is transitive. -/
theorem lexLt_trans (a b c : List Nat) (h1 : lexLt a b = true) (h2 : lexLt b c = true) :
    lexLt a c = true := by
  induction a generalizing b c with
  | nil =>
    cases b with
    | nil => simp [lexLt] at h1
    | cons y b =>
      cases c with
      | nil => simp [lexLt] at h2
      | cons z c => simp [lexLt]
  | cons x a ih =>
    cases b with
    | nil => simp [lexLt] at h1
    | cons y b =>
      cases c with
      | nil => simp [lexLt] at h2
      | cons z c =>
        simp only [lexLt, Bool.or_eq_true, Bool.and_eq_true, decide_eq_true_eq] at h1 h2 ⊢
        rcases h1 with h1 | ⟨h1, h1t⟩ <;> rcases h2 with h2 | ⟨h2, h2t⟩
        · left; omega
        · left; omega
        · left; omega
        · right; exact ⟨by omega, ih b c h1t h2t⟩

/-- Two sequences are equal or one is below the other. -/
theorem lexLt_trichotomy (a b : List Nat) : lexLt a b = true ∨ a = b ∨ lexLt b a = true := by
  induction a generalizing b with
  | nil =>
    cases b with
    | nil => simp
    | cons y b => simp [lexLt]
  | cons x a ih =>
    cases b with
    | nil => simp [lexLt]
    | cons y b =>
      simp only [lexLt, Bool.or_eq_true, Bool.and_eq_true, decide_eq_true_eq, List.cons.injEq]
      rcases Nat.lt_trichotomy x y with h | h | h
      · left; left; exact h
      · rcases ih b with h2 | h2 | h2
        · left; right; exact ⟨h, h2⟩
        · right; left; exact ⟨h, h2⟩
        · right; right; right; exact ⟨h.symm, h2⟩
      · right; right; left; exact h

/-- The lexicographic comparison is asymmetric. -/
theorem lexLt_asymm (a b : List Nat) (h : lexLt a b = true) : lexLt b a = false := by
  by_contra h2
  have h3 : lexLt b a = true := by simpa using h2
  have h4 := lexLt_trans a b a h h3
  rw [lexLt_irrefl] at h4
  exact Bool.false_ne_true h4

/-- A sequence below `c` is below `b`, or `b` is below `c`. -/
theorem lexLt_negTrans (a b c : List Nat) (h : lexLt a c = true) :
    lexLt a b = true ∨ lexLt b c = true := by
  rcases lexLt_trichotomy a b with h1 | h1 | h1
  · exact Or.inl h1
  · exact Or.inr (h1 ▸ h)
  · exact Or.inr (lexLt_trans b a c h1 h)

/-- The comparison on a key is asymmetric. -/
theorem fieldLt_asymm (sortBy : String) (a b : SampleUser) (h : fieldLt sortBy a b = true) :
    fieldLt sortBy b a = false := by
  unfold fieldLt at h ⊢
  split_ifs at h ⊢ with h1 h2 h3
  · simp only [decide_eq_true_eq] at h
    simp only [decide_eq_false_iff_not]
    omega
  · exact lexLt_asymm _ _ h
  · exact lexLt_asymm _ _ h

/-- If `a` is below `c` on a key then `a` is below `b` or `b` is below `c`. -/
theorem fieldLt_negTrans (sortBy : String) (a b c : SampleUser)
    (h : fieldLt sortBy a c = true) :
    fieldLt sortBy a b = true ∨ fieldLt sortBy b c = true := by
  unfold fieldLt at h ⊢
  split_ifs at h ⊢ with h1 h2 h3
  · simp only [decide_eq_true_eq] at h ⊢
    omega
  · exact lexLt_negTrans _ _ _ h
  · exact lexLt_negTrans _ _ _ h

/-- Sorting by a relation that says `b` is not below `a`, for an asymmetric and
negatively transitive `lt`, leaves no later element below an earlier one. -/
theorem insertionSort_pairwise {α : Type} (lt : α → α → Bool) (r : α → α → Prop)
    [DecidableRel r]
    (hasymm : ∀ a b, lt a b = true → lt b a = false)
    (hneg : ∀ a b c, lt a c = true → lt a b = true ∨ lt b c = true)
    (hr : ∀ a b, r a b ↔ lt b a = false) (l : List α) :
    List.Pairwise (fun a b => lt b a = false) (l.insertionSort r) := by
  haveI : IsTotal α r := ⟨fun a b => by
    rw [hr, hr]
    cases hba : lt b a with
    | false => exact Or.inl rfl
    | true => exact Or.inr (hasymm b a hba)⟩
  haveI : IsTrans α r := ⟨fun a b c hab hbc => by
    rw [hr] at hab hbc ⊢
    cases hca : lt c a with
    | false => rfl
    | true =>
      rcases hneg c b a hca with h | h
      · rw [h] at hbc
        exact hbc
      · rw [h] at hab
        exact hab⟩
  exact (List.sorted_insertionSort r l).imp fun h => (hr _ _).1 h

/-- With the order `asc` the comparator puts `a` first exactly when `b` is not below `a`. -/
theorem compareUsers_asc (sortBy : String) (a b : SampleUser) :
    compareUsers sortBy (some "asc") a b ≤ 0 ↔ fieldLt sortBy b a = false := by
  unfold compareUsers
  cases hab : fieldLt sortBy a b with
  | true => simp [fieldLt_asymm sortBy a b hab]
  | false => cases hba : fieldLt sortBy b a <;> simp

/-- With any other order the comparator puts `a` first exactly when `a` is not below `b`. -/
theorem compareUsers_other (sortBy : String) (sortOrder : Option String)
    (h : sortOrder ≠ some "asc") (a b : SampleUser) :
    compareUsers sortBy sortOrder a b ≤ 0 ↔ fieldLt sortBy a b = false := by
  unfold compareUsers
  cases hab : fieldLt sortBy a b with
  | true => simp [h]
  | false => cases hba : fieldLt sortBy b a <;> simp [h]

/-- C7 (counterexample): the order value `ascending` is not `desc`, yet `sortUsers` returns
the three filtered sample users as eveline, bob, acep, which is not non-decreasing by
email; the repository selects direction 1 (ascending) for the sort `email:ascending`. -/
theorem sortUsers_other_order_descends :
    (sortUsers (filterUsers users (some "test")) "email" (some "ascending")).map
        SampleUser.email = ["eveline@test.com", "bob@test.com", "acep@test.com"] ∧
      ¬ List.Pairwise (fun a b => fieldLt "email" b a = false)
        (sortUsers (filterUsers users (some "test")) "email" (some "ascending")) ∧
      (some "ascending" : Option String) ≠ some "desc" ∧
      (sortParamsOf "email:ascending").direction = 1 := by
  refine ⟨by decide, by decide, by decide, by decide⟩

/-- C7 (amended): `sortUsers(list, field, order)` returns a permutation of the list that is
non-decreasing by the field when the order is `asc` and non-increasing by the field for
every other order value (`desc` included); the repository's `sortParams` has direction -1
exactly when the order part of the sort is `desc` and 1 otherwise, so the two agree on
`asc` and `desc`; sorting the three filtered sample users by email with `desc` gives
eveline, bob, acep. -/
theorem sortUsers_perm_sorted (list : List SampleUser) (sortBy : String)
    (sortOrder : Option String) :
    (sortUsers list sortBy sortOrder).Perm list ∧
      (sortOrder = some "asc" →
        List.Pairwise (fun a b => fieldLt sortBy b a = false)
          (sortUsers list sortBy sortOrder)) ∧
      (sortOrder ≠ some "asc" →
        List.Pairwise (fun a b => fieldLt sortBy a b = false)
          (sortUsers list sortBy sortOrder)) ∧
      (∀ sort : String, ((jsSplit sort).get? 1 = some "desc" →
          (sortParamsOf sort).direction = -1) ∧
        ((jsSplit sort).get? 1 ≠ some "desc" → (sortParamsOf sort).direction = 1)) ∧
      (sortParamsOf "email:desc").direction = -1 ∧
      (sortParamsOf "email:asc").direction = 1 ∧
      (sortUsers (filterUsers users (some "test")) "email" (some "desc")).map
        SampleUser.email = ["eveline@test.com", "bob@test.com", "acep@test.com"] := by
  refine ⟨List.perm_insertionSort _ _, ?_, ?_, ?_, by decide, by decide, by decide⟩
  · intro h
    subst h
    exact insertionSort_pairwise (fieldLt sortBy) _ (fieldLt_asymm sortBy)
      (fieldLt_negTrans sortBy) (compareUsers_asc sortBy) list
  · intro h
    exact insertionSort_pairwise (fun a b => fieldLt sortBy b a) _
      (fun a b hab => fieldLt_asymm sortBy b a hab)
      (fun a b c hac => (fieldLt_negTrans sortBy c b a hac).symm)
      (compareUsers_other sortBy sortOrder h) list
  · intro sort
    constructor
    · intro h
      show (if (jsSplit sort).get? 1 = some "desc" then (-1 : Int) else 1) = -1
      rw [if_pos h]
    · intro h
      show (if (jsSplit sort).get? 1 = some "desc" then (-1 : Int) else 1) = 1
      rw [if_neg h]

/-- C7 (amended) at a concrete input: the sample users sorted by email with the order
`asc` are non-decreasing by email, and with no order given they are non-increasing. -/
theorem sortUsers_perm_sorted_witness :
    (some "asc" : Option String) = some "asc" ∧ (none : Option String) ≠ some "asc" ∧
      List.Pairwise (fun a b => fieldLt "email" b a = false)
        (sortUsers users "email" (some "asc")) ∧
      List.Pairwise (fun a b => fieldLt "email" a b = false) (sortUsers users "email" none) :=
  ⟨rfl, by decide, (sortUsers_perm_sorted users "email" (some "asc")).2.1 rfl,
    (sortUsers_perm_sorted users "email" none).2.2.1 (by decide)⟩

/-! ## Theorems: the user management flow -/

/-- The service's `updateUser`: `null` for a missing user, `null` when the write rejects,
`true` when it resolves. -/
theorem updateUser_results {σ : Type} (deps : UsersDeps σ) (id name email : String) (s : σ) :
    (deps.User.findById id s = .ok none →
        (UsersService.updateUser deps id name email s).result = .ok none) ∧
      (∀ u e, deps.User.findById id s = .ok (some u) →
        (deps.User.updateOne id (.profile name email) s).1 = .error e →
        (UsersService.updateUser deps id name email s).result = .ok none) ∧
      (∀ u r, deps.User.findById id s = .ok (some u) →
        (deps.User.updateOne id (.profile name email) s).1 = .ok r →
        (UsersService.updateUser deps id name email s).result = .ok (some true)) := by
  refine ⟨?_, ?_, ?_⟩
  · intro h
    simp [UsersService.updateUser, UsersRepository.getUser, Eff.andThen, Eff.read, Eff.ret, h]
  · intro u e h hw
    simp [UsersService.updateUser, UsersRepository.getUser, UsersRepository.updateUser,
      Eff.andThen, Eff.tryCatch, Eff.read, Eff.write, Eff.ret, h, hw]
  · intro u r h hw
    simp [UsersService.updateUser, UsersRepository.getUser, UsersRepository.updateUser,
      Eff.andThen, Eff.tryCatch, Eff.read, Eff.write, Eff.ret, h, hw]

/-- The service's `deleteUser`: `null` for a missing user, `null` when the write rejects,
`true` when it resolves. -/
theorem deleteUser_results {σ : Type} (deps : UsersDeps σ) (id : String) (s : σ) :
    (deps.User.findById id s = .ok none →
        (UsersService.deleteUser deps id s).result = .ok none) ∧
      (∀ u e, deps.User.findById id s = .ok (some u) →
        (deps.User.deleteOne id s).1 = .error e →
        (UsersService.deleteUser deps id s).result = .ok none) ∧
      (∀ u r, deps.User.findById id s = .ok (some u) →
        (deps.User.deleteOne id s).1 = .ok r →
        (UsersService.deleteUser deps id s).result = .ok (some true)) := by
  refine ⟨?_, ?_, ?_⟩
  · intro h
    simp [UsersService.deleteUser, UsersRepository.getUser, Eff.andThen, Eff.read, Eff.ret, h]
  · intro u e h hw
    simp [UsersService.deleteUser, UsersRepository.getUser, UsersRepository.deleteUser,
      Eff.andThen, Eff.tryCatch, Eff.read, Eff.write, Eff.ret, h, hw]
  · intro u r h hw
    simp [UsersService.deleteUser, UsersRepository.getUser, UsersRepository.deleteUser,
      Eff.andThen, Eff.tryCatch, Eff.read, Eff.write, Eff.ret, h, hw]

/-- The service's `changePassword` with an existing user: it settles as the write does,
rejecting with the write's error and resolving to `true` when the write resolves. -/
theorem changePassword_follows_write {σ : Type} (deps : UsersDeps σ)
    (userId password : String) (s : σ) (u : User)
    (hfind : deps.User.findById userId s = .ok (some u)) :
    (∀ e, (deps.User.updateOne userId (.password (deps.hashPassword password)) s).1 = .error e →
        (UsersService.changePassword deps userId password s).result = .error e) ∧
      (∀ r, (deps.User.updateOne userId (.password (deps.hashPassword password)) s).1 = .ok r →
        (UsersService.changePassword deps userId password s).result = .ok (some true)) := by
  constructor
  · intro e hw
    simp [UsersService.changePassword, UsersRepository.getUser,
      UsersRepository.changePassword, Eff.andThen, Eff.read, Eff.write, Eff.helper, Eff.ret,
      hfind, hw]
  · intro r hw
    simp [UsersService.changePassword, UsersRepository.getUser,
      UsersRepository.changePassword, Eff.andThen, Eff.read, Eff.write, Eff.helper, Eff.ret,
      hfind, hw, UpdateResult.truthy]

/-- C8 (evaluation at the failing input): the store holds `acep` and rejects every write.
`changePassword` for his id rejects with the store's error, while `updateUser` and
`deleteUser` for the same id resolve to `null`. -/
theorem changePassword_raises_on_failed_write :
    (UsersService.changePassword failingDeps "I" "baru" [acep]).result =
        .error (.rejection "connection lost") ∧
      (UsersService.updateUser failingDeps "I" "Acep" "acep@test.com" [acep]).result =
        .ok none ∧
      (UsersService.deleteUser failingDeps "I" [acep]).result = .ok none :=
  ⟨rfl, rfl, rfl⟩

/-- C9: when the lookup of `userId` resolves to no user, `changePassword` resolves to
`null`, the only call it makes is that lookup (no `hashPassword`, no write), and the
store is left as it was. -/
theorem changePassword_missing_user {σ : Type} (deps : UsersDeps σ)
    (userId password : String) (s : σ)
    (hnone : deps.User.findById userId s = .ok none) :
    (UsersService.changePassword deps userId password s).result = .ok none ∧
      (UsersService.changePassword deps userId password s).calls = [.findById userId] ∧
      (UsersService.changePassword deps userId password s).store = s := by
  simp [UsersService.changePassword, UsersRepository.getUser, Eff.andThen, Eff.read,
    Eff.ret, hnone]

/-- C9 at a concrete input: the in-memory collection holds `acep` only and the id is
another one. -/
theorem changePassword_missing_user_witness :
    sampleDeps.User.findById "II" [acep] = .ok none ∧
      (UsersService.changePassword sampleDeps "II" "baru" [acep]).result = .ok none ∧
      (UsersService.changePassword sampleDeps "II" "baru" [acep]).calls = [.findById "II"] ∧
      (UsersService.changePassword sampleDeps "II" "baru" [acep]).store = [acep] :=
  ⟨rfl, changePassword_missing_user sampleDeps "II" "baru" [acep] rfl⟩

/-- C10: when the repository's `createUser` rejects (as it does for an email the store
already holds), the service's `createUser` resolves to `null` instead of rejecting; when
it resolves, the service resolves to `true`. -/
theorem createUser_null_on_rejection {σ : Type} (deps : UsersDeps σ)
    (name email password : String) (s : σ) :
    (∀ e, (deps.User.create name email (deps.hashPassword password) s).1 = .error e →
        (UsersService.createUser deps name email password s).result = .ok none) ∧
      (∀ u, (deps.User.create name email (deps.hashPassword password) s).1 = .ok u →
        (UsersService.createUser deps name email password s).result = .ok (some true)) := by
  constructor
  · intro e h
    simp [UsersService.createUser, UsersRepository.createUser, Eff.andThen, Eff.tryCatch,
      Eff.helper, Eff.write, Eff.ret, h]
  · intro u h
    simp [UsersService.createUser, UsersRepository.createUser, Eff.andThen, Eff.tryCatch,
      Eff.helper, Eff.write, Eff.ret, h]

/-- C10 at a concrete input: the in-memory collection already holds `acep@test.com`, so
the create is rejected as a duplicate and the service resolves to `null`. -/
theorem createUser_null_on_rejection_witness :
    (sampleDeps.User.create "Acep Dua" "acep@test.com" (sampleDeps.hashPassword "baru")
          [acep]).1 = .error (.rejection "E11000 duplicate key error") ∧
      (UsersService.createUser sampleDeps "Acep Dua" "acep@test.com" "baru" [acep]).result =
        .ok none :=
  ⟨rfl, (createUser_null_on_rejection sampleDeps "Acep Dua" "acep@test.com" "baru" [acep]).1
    _ rfl⟩

end Midtest
